import Mathlib

/-!
# Verification of the gnvim RPC client core

A shallow embedding of the msgpack-RPC client of the gnvim repository:
the wire message model, the call correlation engine (`handle_response`),
the typed redraw-event decoder (`decode_redraw_params`), the application
read loop (`io_loop` in `gnvim/src/components/appwindow/imp.rs`), the UI
event handler (`handle_ui_event`), and the grid component operations
(`cursor_goto`, `make_external`, `unparent` in
`ui/src/components/grid/mod.rs`).

Pure functions from the source become Lean functions; the stateful read
loop becomes explicit state threading over the list of transport read
results; Rust panics (`unwrap`/`expect`/`panic!` in the source) are
modelled as an explicit `panicked` outcome / `Except.error`.
-/

/-- Modelled from the spec (§3): the generic, dynamically-tagged value type of
the msgpack value model (`rmpv::Value` in the source, provided by an external
serialization library, not under `src/`).  The `Float`, `Bin` and `Ext`
variants are irrelevant to every claim (no claim exercises floating point or
raw binary payloads) and are carried as opaque data. -/
inductive Value where
  | nil : Value
  | bool (b : Bool) : Value
  | int (i : Int) : Value
  | str (s : String) : Value
  | array (items : List Value) : Value
  | map (pairs : List (Value × Value)) : Value
  | ext (tag : Int) (data : List Nat) : Value
deriving Repr

/-- Modelled from the spec (§3, §6): the `Request` message variant
`{ id, method, params }` (the `rpc` module of `nvim-rs` is not under `src/`;
the shape is also destructured by `io_loop` in
`gnvim/src/components/appwindow/imp.rs`). -/
structure RequestMsg where
  id : Nat
  method : String
  params : List Value
deriving Repr

/-- Modelled from the spec (§3): the `Response` message variant
`{ id, error : Option<Value>, result : Option<Value> }`. -/
structure ResponseMsg where
  id : Nat
  error : Option Value
  result : Option Value
deriving Repr

/-- Modelled from the spec (§3): the `Notification` message variant
`{ method, params }`. -/
structure NotificationMsg where
  method : String
  params : List Value
deriving Repr

/-- Modelled from the spec (§3): the three-variant `Message` union dispatched
on by `io_loop`. -/
inductive Message where
  | request (req : RequestMsg) : Message
  | response (res : ResponseMsg) : Message
  | notification (n : NotificationMsg) : Message
deriving Repr

/-- Modelled from the spec (§4.1): the Wire Codec read error
(`CodecError::Malformed` / `UnknownType` / `Io`); the codec itself is in the
`rpc` module of `nvim-rs`, not under `src/`.  Which variant occurred is
irrelevant to the read loop, which `unwrap`s the result. -/
inductive CodecError where
  | malformed : CodecError
  | unknownType : CodecError
  | io : CodecError
deriving Repr, DecidableEq

/-- Modelled from the spec (§4.2, §7): the structured call error delivered to
a caller's completion slot (`CallError` of `nvim-rs/src/client.rs`, which is
re-exported by `nvim-rs/src/lib.rs` but not itself under `src/`).
`remote` carries an error value reported by the peer in a `Response`;
`connectionClosed` is the terminal error of the §4.2 termination cascade. -/
inductive CallError where
  | connectionClosed : CallError
  | io : CallError
  | remote (e : Value) : CallError
deriving Repr

/-- Modelled from the spec (§4.2): `HandleError`, declared in
`nvim-rs/src/lib.rs` line 8 with its body in the absent `client.rs`:
`handle_response` fails with `HandleError::UnknownId` when the response id is
not in the pending table. -/
inductive HandleError where
  | unknownId : HandleError
deriving Repr, DecidableEq

/-- Modelled from the spec (§3, §4.2): the state of the Call Correlation
Engine visible to `handle_response`: the ids with a still-pending (created,
not yet fulfilled) completion slot, and the record of slot fulfillments
`(id, Ok result / Err error)` in the order they happened.  A `PendingCall`
slot is one-shot: fulfilling it means removing its id from `pending` and
appending the outcome to `fulfilled`. -/
structure ClientState where
  pending : List Nat
  fulfilled : List (Nat × Except CallError (Option Value))
deriving Repr

/-- Modelled from the spec (§4.2): `handle_response` of the Call Correlation
Engine (`nvim-rs/src/client.rs`, not under `src/`): look the response id up
in the pending table; if found, remove the entry and fulfill its slot with
`Ok(result)` or `Err(remote-reported error value)` depending on which field
was populated; if not found, fail with `HandleError::UnknownId`. -/
def handle_response (c : ClientState) (res : ResponseMsg) :
    Except HandleError ClientState :=
  if res.id ∈ c.pending then
    let outcome : Except CallError (Option Value) :=
      match res.error with
      | some e => Except.error (CallError.remote e)
      | none => Except.ok res.result
    Except.ok { pending := c.pending.erase res.id,
                fulfilled := c.fulfilled ++ [(res.id, outcome)] }
  else
    Except.error HandleError.unknownId

/-- Modelled from the spec (§4.3): the decode error of the Typed Event
Decoder (`DecodeError` of `nvim-rs/src/types.rs`, re-exported by
`nvim-rs/src/lib.rs` line 10 but not itself under `src/`).  `unknownEvent`
carries the unrecognized batch event name; `malformed` reports precisely
which event/field failed. -/
inductive DecodeError where
  | unknownEvent (name : String) : DecodeError
  | malformed (event : String) (field : String) : DecodeError
deriving Repr, DecidableEq

/-- A `default_colors_set` occurrence.  Field names `rgb_fg`, `rgb_bg`,
`rgb_sp` are those read by `handle_ui_event` in
`gnvim/src/components/appwindow/imp.rs` lines 119-121; per the spec (§4.3)
they hold signed 24-bit RGB packed integers, transmitted verbatim. -/
structure DefaultColorsSetEvent where
  rgb_fg : Int
  rgb_bg : Int
  rgb_sp : Int
deriving Repr, DecidableEq

/-- A `hl_attr_define` occurrence.  Field names `id` and `rgb_attrs` are
those read by `handle_ui_event` in
`gnvim/src/components/appwindow/imp.rs` line 125. -/
structure HlAttrDefineEvent where
  id : Int
  rgb_attrs : Value
deriving Repr

/-- Modelled from the spec (§3, §4.3): the closed `UiEvent` enum of
`nvim-rs/src/types.rs` (not under `src/`).  The constructors are exactly the
variants matched by `handle_ui_event` in
`gnvim/src/components/appwindow/imp.rs` plus `gridScroll`, which the spec's
§3 variant list names and the decoder knows but the handler's catch-all arm
does not.  Variants whose per-occurrence field layout no claim inspects carry
their occurrences as raw positional field lists. -/
inductive UiEvent where
  | optionSet (occs : List (List Value)) : UiEvent
  | defaultColorsSet (occs : List DefaultColorsSetEvent) : UiEvent
  | hlAttrDefine (occs : List HlAttrDefineEvent) : UiEvent
  | hlGroupSet (occs : List (List Value)) : UiEvent
  | gridResize (occs : List (List Value)) : UiEvent
  | gridClear (occs : List (List Value)) : UiEvent
  | gridLine (occs : List (List Value)) : UiEvent
  | gridScroll (occs : List (List Value)) : UiEvent
  | gridCursorGoto (occs : List (List Value)) : UiEvent
  | modeInfoSet (occs : List (List Value)) : UiEvent
  | modeChange (occs : List (List Value)) : UiEvent
  | winViewport (occs : List (List Value)) : UiEvent
  | setTitle (occs : List (List Value)) : UiEvent
  | setIcon (occs : List (List Value)) : UiEvent
  | updateMenu : UiEvent
  | mouseOn : UiEvent
  | mouseOff : UiEvent
  | flush : UiEvent
deriving Repr

/-- Modelled from the spec (§4.3): decode the occurrences of a batch whose
field layout no claim inspects: each occurrence must itself be an array of
positional fields (else a malformed-occurrence decode error naming the
event); the fields are kept raw. -/
def decodeRawOccs (event : String) (occs : List Value) :
    Except DecodeError (List (List Value)) :=
  match occs with
  | [] => Except.ok []
  | Value.array fields :: rest =>
      match decodeRawOccs event rest with
      | Except.ok tl => Except.ok (fields :: tl)
      | Except.error e => Except.error e
  | _ :: _ => Except.error (DecodeError.malformed event "occurrence")

/-- Modelled from the spec (§4.3): decode the occurrences of a
`default_colors_set` batch with strict arity checking: the first three
positional fields must be integers (`rgb_fg`, `rgb_bg`, `rgb_sp`); too few
fields is a decode error; extra trailing fields (the cterm colors) are
permitted and ignored. -/
def decodeDefaultColorsSetOccs (occs : List Value) :
    Except DecodeError (List DefaultColorsSetEvent) :=
  match occs with
  | [] => Except.ok []
  | Value.array (Value.int fg :: Value.int bg :: Value.int sp :: _) :: rest =>
      match decodeDefaultColorsSetOccs rest with
      | Except.ok tl => Except.ok (⟨fg, bg, sp⟩ :: tl)
      | Except.error e => Except.error e
  | _ :: _ => Except.error (DecodeError.malformed "default_colors_set" "occurrence")

/-- Modelled from the spec (§4.3): decode the occurrences of a
`hl_attr_define` batch: positional fields `id` (integer) and `rgb_attrs`;
extra trailing fields (cterm attrs, info) are permitted and ignored. -/
def decodeHlAttrDefineOccs (occs : List Value) :
    Except DecodeError (List HlAttrDefineEvent) :=
  match occs with
  | [] => Except.ok []
  | Value.array (Value.int i :: attrs :: _) :: rest =>
      match decodeHlAttrDefineOccs rest with
      | Except.ok tl => Except.ok (⟨i, attrs⟩ :: tl)
      | Except.error e => Except.error e
  | _ :: _ => Except.error (DecodeError.malformed "hl_attr_define" "occurrence")

/-- Modelled from the spec (§4.3): the closed set of known event names,
paired with each name's occurrence decoder.  The names are the spec §3
variant list (with the `hl_group_set` variant additionally evidenced by
`handle_ui_event` in `gnvim/src/components/appwindow/imp.rs` line 127). -/
def eventDecoders : List (String × (List Value → Except DecodeError UiEvent)) :=
  [ ("option_set", fun occs => (decodeRawOccs "option_set" occs).map UiEvent.optionSet),
    ("default_colors_set", fun occs =>
      (decodeDefaultColorsSetOccs occs).map UiEvent.defaultColorsSet),
    ("hl_attr_define", fun occs =>
      (decodeHlAttrDefineOccs occs).map UiEvent.hlAttrDefine),
    ("hl_group_set", fun occs => (decodeRawOccs "hl_group_set" occs).map UiEvent.hlGroupSet),
    ("grid_resize", fun occs => (decodeRawOccs "grid_resize" occs).map UiEvent.gridResize),
    ("grid_clear", fun occs => (decodeRawOccs "grid_clear" occs).map UiEvent.gridClear),
    ("grid_line", fun occs => (decodeRawOccs "grid_line" occs).map UiEvent.gridLine),
    ("grid_scroll", fun occs => (decodeRawOccs "grid_scroll" occs).map UiEvent.gridScroll),
    ("grid_cursor_goto", fun occs =>
      (decodeRawOccs "grid_cursor_goto" occs).map UiEvent.gridCursorGoto),
    ("mode_info_set", fun occs =>
      (decodeRawOccs "mode_info_set" occs).map UiEvent.modeInfoSet),
    ("mode_change", fun occs => (decodeRawOccs "mode_change" occs).map UiEvent.modeChange),
    ("win_viewport", fun occs => (decodeRawOccs "win_viewport" occs).map UiEvent.winViewport),
    ("set_title", fun occs => (decodeRawOccs "set_title" occs).map UiEvent.setTitle),
    ("set_icon", fun occs => (decodeRawOccs "set_icon" occs).map UiEvent.setIcon),
    ("update_menu", fun _ => Except.ok UiEvent.updateMenu),
    ("mouse_on", fun _ => Except.ok UiEvent.mouseOn),
    ("mouse_off", fun _ => Except.ok UiEvent.mouseOff),
    ("flush", fun _ => Except.ok UiEvent.flush) ]

/-- The closed set of event names the decoder resolves against. -/
def knownEventNames : List String := eventDecoders.map Prod.fst

/-- Modelled from the spec (§4.3): decode one batch
`[event_name, occurrence_1, ...]`: the batch must be an array headed by a
string event name; the name is resolved against the closed set of known
names (case-sensitive, exact match); an unknown name fails with
`DecodeError::UnknownEvent(name)`; the occurrences accumulate into one
`UiEvent` instance. -/
def decodeBatch (batch : Value) : Except DecodeError UiEvent :=
  match batch with
  | Value.array (Value.str name :: occs) =>
      match eventDecoders.lookup name with
      | some d => d occs
      | none => Except.error (DecodeError.unknownEvent name)
  | _ => Except.error (DecodeError.malformed "redraw" "batch")

/-- Modelled from the spec (§4.3): `decode_redraw_params` of
`nvim-rs/src/types.rs` (re-exported by `nvim-rs/src/lib.rs` line 10, not
itself under `src/`): decode the params array of a "redraw" notification,
batch by batch in input order; the first failing batch fails the whole
decode. -/
def decode_redraw_params (params : List Value) :
    Except DecodeError (List UiEvent) :=
  match params with
  | [] => Except.ok []
  | b :: rest =>
      match decodeBatch b with
      | Except.error e => Except.error e
      | Except.ok ev =>
          match decode_redraw_params rest with
          | Except.error e => Except.error e
          | Except.ok evs => Except.ok (ev :: evs)

/-- Modelled from the spec (§4.3 numeric notes): the application `Color`
type (`gnvim/src/colors.rs`, used by `handle_ui_event` but not under
`src/`): either a concrete 24-bit RGB color or the distinct "no color /
unset" state. -/
inductive Color where
  | unset : Color
  | rgb (r g b : Nat) : Color
deriving Repr, DecidableEq

/-- Modelled from the spec (§4.3 numeric notes): `Color::from_i64`
(`gnvim/src/colors.rs`, not under `src/`): colors arrive as signed 24-bit
RGB packed integers; the documented "unset/default" sentinel (`-1` in the
Neovim UI protocol) is preserved as the distinct no-color state rather than
coerced to black or zero; a non-negative value is unpacked into its RGB
components. -/
def Color.from_i64 (v : Int) : Color :=
  if v < 0 then
    Color.unset
  else
    Color.rgb ((v.toNat / 65536) % 256) ((v.toNat / 256) % 256) (v.toNat % 256)

/-- The mutable color state of `AppWindow` (`colors` field of
`gnvim/src/components/appwindow/imp.rs`): default foreground / background /
special colors and the highlight-attribute table filled by
`hl_attr_define`.  The table is a map from attribute id to the raw
`rgb_attrs` value; `HashMap::insert` semantics (replace on duplicate id). -/
structure Colors where
  fg : Color
  bg : Color
  sp : Color
  hls : List (Int × Value)
deriving Repr

/-- One call observed by the external `Shell` UI collaborator (the
windowing/rendering layer is an excluded collaborator per the spec §1; the
embedding records the calls `handle_ui_event` makes into it, in order). -/
inductive ShellCall where
  | gridResize (occ : List Value) : ShellCall
  | gridLine (occ : List Value) : ShellCall
  | flush (colors : Colors) (font : Nat) : ShellCall
deriving Repr

/-- The `AppWindow` state visible to `handle_ui_event`
(`gnvim/src/components/appwindow/imp.rs`): the colors cell, an opaque font,
and the trace of calls made into the `Shell` collaborator. -/
structure AppState where
  colors : Colors
  font : Nat
  shell : List ShellCall
deriving Repr

/-- The panic message of the catch-all arm of `handle_ui_event`
(`gnvim/src/components/appwindow/imp.rs` line 148). -/
def unhandledUiEventMsg : String := "Unhandled ui event"

/-- `handle_ui_event` of `gnvim/src/components/appwindow/imp.rs` lines
114-150, arm by arm: `DefaultColorsSet` folds each occurrence into the
colors cell through `Color::from_i64`; `HlAttrDefine` inserts each
occurrence into the highlight table; `GridResize` / `GridLine` forward each
occurrence to the shell; `Flush` calls `shell.handle_flush` with the current
colors and font; the explicitly-ignored variants do nothing; every other
variant hits the catch-all `panic!`, modelled as `Except.error`. -/
def handle_ui_event (app : AppState) (event : UiEvent) :
    Except String AppState :=
  match event with
  | UiEvent.optionSet _ => Except.ok app
  | UiEvent.defaultColorsSet events =>
      Except.ok (events.foldl
        (fun a ev =>
          { a with colors :=
              { a.colors with
                  fg := Color.from_i64 ev.rgb_fg,
                  bg := Color.from_i64 ev.rgb_bg,
                  sp := Color.from_i64 ev.rgb_sp } })
        app)
  | UiEvent.hlAttrDefine events =>
      Except.ok (events.foldl
        (fun a ev =>
          { a with colors :=
              { a.colors with
                  hls := (ev.id, ev.rgb_attrs) ::
                    a.colors.hls.filter (fun p => p.1 ≠ ev.id) } })
        app)
  | UiEvent.hlGroupSet _ => Except.ok app
  | UiEvent.gridResize events =>
      Except.ok { app with shell := app.shell ++ events.map ShellCall.gridResize }
  | UiEvent.gridClear _ => Except.ok app
  | UiEvent.gridLine events =>
      Except.ok { app with shell := app.shell ++ events.map ShellCall.gridLine }
  | UiEvent.updateMenu => Except.ok app
  | UiEvent.winViewport _ => Except.ok app
  | UiEvent.gridCursorGoto _ => Except.ok app
  | UiEvent.modeInfoSet _ => Except.ok app
  | UiEvent.modeChange _ => Except.ok app
  | UiEvent.flush =>
      Except.ok { app with shell := app.shell ++ [ShellCall.flush app.colors app.font] }
  | UiEvent.setIcon _ => Except.ok app
  | UiEvent.setTitle _ => Except.ok app
  | UiEvent.mouseOn => Except.ok app
  | UiEvent.mouseOff => Except.ok app
  | UiEvent.gridScroll _ => Except.error unhandledUiEventMsg

/-- `true` exactly on the variants `handle_ui_event` matches explicitly;
`false` on the variants that reach its catch-all `panic!` arm. -/
def UiEvent.handled : UiEvent → Bool
  | UiEvent.gridScroll _ => false
  | _ => true

/-- An inbound message routed to the generic unhandled-message sink: the
`println!` arms of `io_loop` for a server-initiated `Request` (line 93) and
for a `Notification` whose method is not "redraw" (line 106). -/
inductive SinkItem where
  | request (req : RequestMsg) : SinkItem
  | notification (method : String) (params : List Value) : SinkItem
deriving Repr

/-- The state threaded through `io_loop`
(`gnvim/src/components/appwindow/imp.rs` lines 76-112): the correlation
engine state behind the `nvim` mutex, the `AppWindow` state used by
`handle_ui_event`, the trace of `UiEvent`s forwarded to `handle_ui_event`
(in forwarding order), the generic unhandled-message sink, and whether the
loop has panicked (`unwrap` / `expect` / `panic!`), with the panic
message. -/
structure LoopState where
  client : ClientState
  app : AppState
  ui : List UiEvent
  sink : List SinkItem
  panicked : Option String
deriving Repr

/-- The `for_each` over decoded events in `io_loop` lines 101-103: forward
each event, in order, to `self.handle_ui_event`; a panicking handler stops
the traversal (the event that panicked was still forwarded — the call
happened). -/
def forward_events (st : LoopState) (events : List UiEvent) : LoopState :=
  match events with
  | [] => st
  | e :: rest =>
      let st1 := { st with ui := st.ui ++ [e] }
      match handle_ui_event st1.app e with
      | Except.ok a => forward_events { st1 with app := a } rest
      | Except.error m => { st1 with panicked := some m }

/-- The panic message of `io_loop`'s `expect` on `handle_response`
(`gnvim/src/components/appwindow/imp.rs` line 90). -/
def handleResponsePanicMsg : String := "failed to handle nvim response"

/-- The panic message of `io_loop`'s `expect` on `decode_redraw_params`
(`gnvim/src/components/appwindow/imp.rs` line 99). -/
def decodePanicMsg : String := "failed to decode redraw notification"

/-- The panic message of `io_loop`'s `unwrap` on `reader.recv()`
(`gnvim/src/components/appwindow/imp.rs` line 81). -/
def recvPanicMsg : String := "called unwrap on reader recv error"

/-- One iteration body of `io_loop` (`gnvim/src/components/appwindow/imp.rs`
lines 82-110), dispatching one successfully read `Message` by variant:
`Response` → `handle_response` (its failure hits the `expect` and panics);
`Request` → printed to the unhandled-message sink; `Notification` with
method exactly "redraw" → `decode_redraw_params` (failure hits the `expect`
and panics) and the decoded events forwarded in order; any other
`Notification` → printed to the unhandled-message sink. -/
def io_step (st : LoopState) (msg : Message) : LoopState :=
  match msg with
  | Message.response res =>
      match handle_response st.client res with
      | Except.ok c => { st with client := c }
      | Except.error _ => { st with panicked := some handleResponsePanicMsg }
  | Message.request req => { st with sink := st.sink ++ [SinkItem.request req] }
  | Message.notification n =>
      if n.method = "redraw" then
        match decode_redraw_params n.params with
        | Except.ok events => forward_events st events
        | Except.error _ => { st with panicked := some decodePanicMsg }
      else
        { st with sink := st.sink ++ [SinkItem.notification n.method n.params] }

/-- `io_loop` of `gnvim/src/components/appwindow/imp.rs` lines 76-112, run
over the list of results the Wire Codec `recv` produces: each iteration
`unwrap`s the read result — a read failure panics the loop (there is no
graceful-termination branch) — then dispatches the message via `io_step`;
a panic inside an iteration also ends the loop. -/
def io_loop (st : LoopState) (reads : List (Except CodecError Message)) :
    LoopState :=
  match reads with
  | [] => st
  | r :: rest =>
      match st.panicked with
      | some _ => st
      | none =>
          match r with
          | Except.error _ => { st with panicked := some recvPanicMsg }
          | Except.ok msg => io_loop (io_step st msg) rest

/-- Rust's `as usize` cast applied to an `i64` index
(`row as usize` / `col as usize` in `Grid::cursor_goto`,
`ui/src/components/grid/mod.rs` lines 199-200): two's-complement
reinterpretation, i.e. reduction modulo `2^64` into a machine index. -/
def usizeOfI64 (i : Int) : Nat := (i % (2 : Int) ^ 64).toNat

/-- One cell of a grid row; `cursor_goto` and `flush` read its `text`
(`ui/src/components/grid/mod.rs` lines 183, 202). -/
structure Cell where
  text : String
deriving Repr, DecidableEq

/-- One row of the grid buffer, with its `cells` vector
(`ui/src/components/grid/mod.rs` line 199). -/
structure Row where
  cells : List Cell
deriving Repr, DecidableEq

/-- The cursor state targeted by `imp.cursor.move_to(cell, col, row)`
(`ui/src/components/grid/mod.rs` line 202): its grid position and the text
of the cell it sits on. -/
structure Cursor where
  row : Int
  col : Int
  text : String
deriving Repr, DecidableEq

/-- The state of the `Grid` component of `ui/src/components/grid/mod.rs`
reached by the modelled operations: the row buffer and cursor
(`cursor_goto`), the gtk widget parent and the optional external window
(`unparent` / `make_external`), a counter supplying fresh window
identities for `ExternalWindow::new`, and the traces of windows presented
and destroyed. -/
structure Grid where
  rows : List Row
  cursor : Cursor
  widget_parent : Option Nat
  external_win : Option Nat
  next_win : Nat
  presented : List Nat
  destroyed : List Nat
deriving Repr, DecidableEq

/-- `Grid::cursor_goto` of `ui/src/components/grid/mod.rs` lines 194-203:
fetch the row at `row as usize`; if absent, `some_or_return!` returns early
with the grid (and cursor) unchanged; otherwise fetch the cell at
`col as usize`, whose absence hits `.expect("invalid col")` — a panic,
modelled as `Except.error` — and move the cursor to that cell. -/
def Grid.cursor_goto (g : Grid) (col row : Int) : Except String Grid :=
  match g.rows.get? (usizeOfI64 row) with
  | none => Except.ok g
  | some r =>
      match r.cells.get? (usizeOfI64 col) with
      | none => Except.error "invalid col"
      | some cell =>
          Except.ok { g with cursor := { row := row, col := col, text := cell.text } }

/-- `Grid::unparent` of `ui/src/components/grid/mod.rs` lines 45-51:
`WidgetExt::unparent(self)`, then `take()` the external window, if any, and
destroy it. -/
def Grid.unparent (g : Grid) : Grid :=
  let g1 := { g with widget_parent := none }
  match g1.external_win with
  | some w => { g1 with external_win := none, destroyed := g1.destroyed ++ [w] }
  | none => g1

/-- `Grid::make_external` of `ui/src/components/grid/mod.rs` lines 53-63:
if an external window already exists, return immediately; otherwise
unparent the grid, create a fresh `ExternalWindow`, present it, and store
it. -/
def Grid.make_external (g : Grid) (_parent : Nat) : Grid :=
  if g.external_win.isSome then
    g
  else
    let g1 := Grid.unparent g
    let w := g1.next_win
    { g1 with next_win := w + 1,
              presented := g1.presented ++ [w],
              external_win := some w }

/-- An `AppWindow` state with default (unset) colors, an empty highlight
table and no shell calls yet. -/
def app0 : AppState :=
  { colors := { fg := Color.unset, bg := Color.unset, sp := Color.unset, hls := [] },
    font := 0,
    shell := [] }

/-- A read-loop state with no pending calls, nothing forwarded and no
panic. -/
def loop0 : LoopState :=
  { client := { pending := [], fulfilled := [] }, app := app0,
    ui := [], sink := [], panicked := none }

/-- A read-loop state with one pending call (request id 7) at the moment
the transport fails. -/
def c1Start : LoopState :=
  { client := { pending := [7], fulfilled := [] }, app := app0,
    ui := [], sink := [], panicked := none }

/-- A redraw params array whose single batch carries an event name outside
the closed set of known names. -/
def badRedrawParams : List Value :=
  [Value.array [Value.str "totally_bogus_event"]]

/-- A well-formed `grid_scroll` occurrence
`[grid, top, bot, left, right, rows, cols]`. -/
def gridScrollOcc : List Value :=
  [Value.int 1, Value.int 0, Value.int 10, Value.int 0, Value.int 80,
   Value.int 1, Value.int 0]

/-- A redraw batch of one well-formed `grid_scroll` occurrence: an event
kind the decoder knows but `handle_ui_event` does not handle. -/
def gridScrollBatch : Value :=
  Value.array (Value.str "grid_scroll" :: [Value.array gridScrollOcc])

/-- A one-row, one-cell grid with the cursor on that cell and no external
window. -/
def gridOneCell : Grid :=
  { rows := [{ cells := [{ text := "a" }] }],
    cursor := { row := 0, col := 0, text := "a" },
    widget_parent := some 0, external_win := none, next_win := 0,
    presented := [], destroyed := [] }

/-- A grid that already has an external window (id 3). -/
def gridAlreadyExternal : Grid :=
  { rows := [], cursor := { row := 0, col := 0, text := "" },
    widget_parent := none, external_win := some 3, next_win := 4,
    presented := [3], destroyed := [] }

theorem lookup_eq_none_of_not_mem_keys {α : Type} (l : List (String × α))
    (n : String) (h : n ∉ l.map Prod.fst) : List.lookup n l = none := by
  induction l with
  | nil => rfl
  | cons p t ih =>
      simp only [List.map_cons, List.mem_cons] at h
      push_neg at h
      obtain ⟨h1, h2⟩ := h
      simp only [List.lookup, beq_eq_false_iff_ne.mpr h1]
      exact ih h2

theorem decodeBatch_unknown (name : String) (occs : List Value)
    (h : name ∉ knownEventNames) :
    decodeBatch (Value.array (Value.str name :: occs)) =
      Except.error (DecodeError.unknownEvent name) := by
  have hl : List.lookup name eventDecoders = none :=
    lookup_eq_none_of_not_mem_keys eventDecoders name h
  simp only [decodeBatch, hl]

theorem decode_ok_batch_ok (params : List Value) :
    ∀ events : List UiEvent,
      decode_redraw_params params = Except.ok events →
      ∀ b ∈ params, ∃ ev, decodeBatch b = Except.ok ev := by
  induction params with
  | nil => intro events _ b hb; exact absurd hb (List.not_mem_nil b)
  | cons p t ih =>
      intro events h b hb
      rw [decode_redraw_params] at h
      cases hp : decodeBatch p with
      | error e => rw [hp] at h; simp at h
      | ok ev =>
          rw [hp] at h
          cases ht : decode_redraw_params t with
          | error e => rw [ht] at h; simp at h
          | ok evs =>
              rcases List.mem_cons.mp hb with rfl | hbt
              · exact ⟨ev, hp⟩
              · exact ih evs ht b hbt

theorem forward_events_frame (events : List UiEvent) :
    ∀ st : LoopState,
      (forward_events st events).client = st.client ∧
      (forward_events st events).sink = st.sink := by
  induction events with
  | nil => intro st; exact ⟨rfl, rfl⟩
  | cons e rest ih =>
      intro st
      rw [forward_events]
      cases h : handle_ui_event st.app e with
      | ok a =>
          simp only [h]
          exact ih _
      | error m => simp [h]

theorem handle_ui_event_ok_of_handled (app : AppState) (e : UiEvent)
    (h : e.handled = true) : ∃ a, handle_ui_event app e = Except.ok a := by
  cases e <;> first
    | exact ⟨_, rfl⟩
    | simp [UiEvent.handled] at h

theorem forward_events_all_handled (events : List UiEvent) :
    ∀ st : LoopState,
      (∀ e ∈ events, e.handled = true) →
      (forward_events st events).ui = st.ui ++ events ∧
      (forward_events st events).panicked = st.panicked := by
  induction events with
  | nil => intro st _; simp [forward_events]
  | cons e rest ih =>
      intro st h
      obtain ⟨a, ha⟩ :=
        handle_ui_event_ok_of_handled st.app e (h e (List.mem_cons_self e rest))
      rw [forward_events]
      simp only [ha]
      have hrec := ih { st with ui := st.ui ++ [e], app := a }
        (fun x hx => h x (List.mem_cons_of_mem e hx))
      refine ⟨?_, ?_⟩
      · rw [hrec.1]; simp
      · rw [hrec.2]

theorem io_loop_of_panicked (st : LoopState) (m : String)
    (h : st.panicked = some m) : ∀ reads, io_loop st reads = st := by
  intro reads
  cases reads with
  | nil => rfl
  | cons r rest =>
      rw [io_loop.eq_def, h]

theorem make_external_has_window (g : Grid) (parent : Nat) :
    (Grid.make_external g parent).external_win.isSome = true := by
  cases h : g.external_win with
  | some w => simp [Grid.make_external, h]
  | none => simp [Grid.make_external, Grid.unparent, h]

theorem io_loop_cons_ok (st : LoopState) (msg : Message)
    (rest : List (Except CodecError Message)) (h : st.panicked = none) :
    io_loop st (Except.ok msg :: rest) = io_loop (io_step st msg) rest := by
  rw [io_loop.eq_def, h]

theorem io_loop_cons_err (st : LoopState) (err : CodecError)
    (rest : List (Except CodecError Message)) (h : st.panicked = none) :
    io_loop st (Except.error err :: rest) =
      { st with panicked := some recvPanicMsg } := by
  rw [io_loop.eq_def, h]

/-- C3: a `PendingCall` slot is fulfilled at most once: when the response id
is pending (ids are unique among outstanding requests per the §3 invariant),
`handle_response` removes the entry and fulfills the slot with `Ok(result)`
or `Err(remote error)` according to which field of the response is
populated; the id is then no longer pending, and a second `handle_response`
with the same id returns `HandleError::UnknownId` instead of fulfilling
anything a second time. -/
theorem handle_response_at_most_once (c : ClientState) (res : ResponseMsg)
    (hnd : c.pending.Nodup) (hmem : res.id ∈ c.pending) :
    handle_response c res =
      Except.ok { pending := c.pending.erase res.id,
                  fulfilled := c.fulfilled ++ [(res.id,
                    match res.error with
                    | some e => Except.error (CallError.remote e)
                    | none => Except.ok res.result)] } ∧
    res.id ∉ c.pending.erase res.id ∧
    handle_response { pending := c.pending.erase res.id,
                      fulfilled := c.fulfilled ++ [(res.id,
                        match res.error with
                        | some e => Except.error (CallError.remote e)
                        | none => Except.ok res.result)] } res =
      Except.error HandleError.unknownId := by
  have hne : res.id ∉ c.pending.erase res.id := by
    intro hmem'
    exact ((List.Nodup.mem_erase_iff hnd).mp hmem').1 rfl
  refine ⟨?_, hne, ?_⟩
  · simp only [handle_response, if_pos hmem]
  · simp only [handle_response, if_neg hne]

theorem handle_response_at_most_once_witness :
    List.Nodup [7] ∧ 7 ∈ [7] ∧
    handle_response { pending := [7], fulfilled := [] }
        { id := 7, error := none, result := some Value.nil } =
      Except.ok { pending := [], fulfilled := [(7, Except.ok (some Value.nil))] } ∧
    handle_response { pending := [], fulfilled := [(7, Except.ok (some Value.nil))] }
        { id := 7, error := none, result := some Value.nil } =
      Except.error HandleError.unknownId := by
  have h := handle_response_at_most_once { pending := [7], fulfilled := [] }
      { id := 7, error := none, result := some Value.nil } (by simp) (by simp)
  exact ⟨by simp, by simp, h.1, h.2.2⟩

/-- C4: a redraw params array containing a batch with an event name outside
the closed set of known names never decodes successfully; as soon as the
decoder reaches that batch (every earlier batch decoding fine), the whole
decode fails with `DecodeError::UnknownEvent` carrying that name — the
unknown batch is never silently skipped. -/
theorem decode_redraw_params_unknown_event (name : String) (occs : List Value)
    (hname : name ∉ knownEventNames) :
    (∀ pre rest : List Value,
       (∀ b ∈ pre, ∃ ev, decodeBatch b = Except.ok ev) →
       decode_redraw_params (pre ++ Value.array (Value.str name :: occs) :: rest) =
         Except.error (DecodeError.unknownEvent name)) ∧
    (∀ (params : List Value) (events : List UiEvent),
       Value.array (Value.str name :: occs) ∈ params →
       decode_redraw_params params ≠ Except.ok events) := by
  have hbad : decodeBatch (Value.array (Value.str name :: occs)) =
      Except.error (DecodeError.unknownEvent name) :=
    decodeBatch_unknown name occs hname
  constructor
  · intro pre
    induction pre with
    | nil =>
        intro rest _
        simp only [List.nil_append, decode_redraw_params, hbad]
    | cons p t ih =>
        intro rest hpre
        obtain ⟨ev, hev⟩ := hpre p (List.mem_cons_self p t)
        have ht := ih rest (fun b hb => hpre b (List.mem_cons_of_mem p hb))
        simp only [List.cons_append, decode_redraw_params, hev, List.append_eq, ht]
  · intro params events hmem hok
    obtain ⟨ev, hev⟩ := decode_ok_batch_ok params events hok _ hmem
    rw [hbad] at hev
    exact absurd hev (by simp)

theorem decode_redraw_params_unknown_event_witness :
    "totally_unknown_event" ∉ knownEventNames ∧
    decode_redraw_params [Value.array [Value.str "totally_unknown_event"]] =
      Except.error (DecodeError.unknownEvent "totally_unknown_event") := by
  have hn : "totally_unknown_event" ∉ knownEventNames := by decide
  refine ⟨hn, ?_⟩
  exact (decode_redraw_params_unknown_event "totally_unknown_event" [] hn).1 [] []
    (fun b hb => absurd hb (List.not_mem_nil b))

/-- C6: a `default_colors_set` occurrence carrying the documented "unset"
sentinel (`-1`) decodes with the sentinel preserved, and converting it with
`Color::from_i64` (as the `DefaultColorsSet` arm of `handle_ui_event` does)
yields the distinct no-color state, which is a different value from
black / `rgb 0 0 0` — the sentinel is never coerced to zero or black. -/
theorem default_colors_sentinel_preserved :
    decode_redraw_params
        [Value.array [Value.str "default_colors_set",
          Value.array [Value.int (-1), Value.int (-1), Value.int (-1)]]] =
      Except.ok [UiEvent.defaultColorsSet
        [{ rgb_fg := -1, rgb_bg := -1, rgb_sp := -1 }]] ∧
    Color.from_i64 (-1) = Color.unset ∧
    Color.unset ≠ Color.rgb 0 0 0 ∧
    (∀ app : AppState,
       handle_ui_event app (UiEvent.defaultColorsSet
           [{ rgb_fg := -1, rgb_bg := -1, rgb_sp := -1 }]) =
         Except.ok { app with colors :=
           { app.colors with fg := Color.unset, bg := Color.unset,
                             sp := Color.unset } }) := by
  exact ⟨rfl, rfl, by decide, fun app => rfl⟩

/-- C9: `Grid::cursor_goto` is asymmetric at its bounds: a `row` whose
`as usize` cast is not a valid index into the grid buffer's rows returns
early with the grid (and cursor) unchanged, while a valid `row` paired with
a `col` whose cast is not a valid index into that row's cells panics
(`.expect("invalid col")`). -/
theorem cursor_goto_bounds (g : Grid) (col row : Int) :
    (g.rows.get? (usizeOfI64 row) = none →
       Grid.cursor_goto g col row = Except.ok g) ∧
    (∀ r : Row, g.rows.get? (usizeOfI64 row) = some r →
       r.cells.get? (usizeOfI64 col) = none →
       Grid.cursor_goto g col row = Except.error "invalid col") := by
  constructor
  · intro h
    simp only [Grid.cursor_goto, h]
  · intro r hr hc
    simp only [Grid.cursor_goto, hr, hc]

theorem cursor_goto_bounds_witness :
    gridOneCell.rows.get? (usizeOfI64 5) = none ∧
    Grid.cursor_goto gridOneCell 0 5 = Except.ok gridOneCell ∧
    gridOneCell.rows.get? (usizeOfI64 0) = some { cells := [{ text := "a" }] } ∧
    ({ cells := [{ text := "a" }] } : Row).cells.get? (usizeOfI64 9) = none ∧
    Grid.cursor_goto gridOneCell 9 0 = Except.error "invalid col" := by
  refine ⟨rfl, ?_, rfl, rfl, ?_⟩
  · exact (cursor_goto_bounds gridOneCell 0 5).1 rfl
  · exact (cursor_goto_bounds gridOneCell 9 0).2 { cells := [{ text := "a" }] } rfl rfl

/-- C10: `Grid::make_external` is idempotent: if the grid already has an
external window the call returns immediately with the state unchanged (no
unparenting, no second window, no trace growth), and in general calling it
twice equals calling it once. -/
theorem make_external_idempotent (g : Grid) (parent : Nat) :
    (g.external_win.isSome = true → Grid.make_external g parent = g) ∧
    Grid.make_external (Grid.make_external g parent) parent =
      Grid.make_external g parent := by
  have halready : ∀ g' : Grid, g'.external_win.isSome = true →
      Grid.make_external g' parent = g' := by
    intro g' h
    simp only [Grid.make_external, if_pos h]
  exact ⟨halready g, halready _ (make_external_has_window g parent)⟩

theorem make_external_idempotent_witness :
    gridAlreadyExternal.external_win.isSome = true ∧
    Grid.make_external gridAlreadyExternal 5 = gridAlreadyExternal ∧
    Grid.make_external (Grid.make_external gridOneCell 5) 5 =
      Grid.make_external gridOneCell 5 := by
  exact ⟨rfl, (make_external_idempotent gridAlreadyExternal 5).1 rfl,
    (make_external_idempotent gridOneCell 5).2⟩

/-- C1 counterexample: with request id 7 pending, a Wire Codec read failure
makes `io_loop` panic (the `unwrap` on `reader.recv()`); the pending entry
is left in place, nothing is fulfilled, and in particular caller 7 does NOT
receive `CallError::ConnectionClosed` — refuting the claimed termination
cascade at N = 1. -/
theorem read_failure_no_cascade_counterexample :
    (io_loop c1Start [Except.error CodecError.io]).panicked = some recvPanicMsg ∧
    (io_loop c1Start [Except.error CodecError.io]).client.pending = [7] ∧
    (io_loop c1Start [Except.error CodecError.io]).client.fulfilled = [] ∧
    ¬ ((7, Except.error CallError.connectionClosed) ∈
        (io_loop c1Start [Except.error CodecError.io]).client.fulfilled) := by
  refine ⟨rfl, rfl, rfl, ?_⟩
  intro hmem
  have h : (io_loop c1Start [Except.error CodecError.io]).client.fulfilled = [] := rfl
  rw [h] at hmem
  exact List.not_mem_nil _ hmem

/-- C1 amended: when the Wire Codec read fails, the read loop terminates by
panicking (`unwrap`), and the pending-call table is left untouched: no
still-pending call is fulfilled with `CallError::ConnectionClosed` (or with
anything else). -/
theorem io_loop_read_failure_panics (st : LoopState) (err : CodecError)
    (rest : List (Except CodecError Message)) (h : st.panicked = none) :
    io_loop st (Except.error err :: rest) =
      { st with panicked := some recvPanicMsg } ∧
    (io_loop st (Except.error err :: rest)).client = st.client := by
  have heq := io_loop_cons_err st err rest h
  exact ⟨heq, by rw [heq]⟩

theorem io_loop_read_failure_panics_witness :
    c1Start.panicked = none ∧
    io_loop c1Start [Except.error CodecError.io] =
      { c1Start with panicked := some recvPanicMsg } ∧
    (io_loop c1Start [Except.error CodecError.io]).client = c1Start.client := by
  have h := io_loop_read_failure_panics c1Start CodecError.io [] rfl
  exact ⟨rfl, h.1, h.2⟩

/-- C2: `io_loop` dispatches each inbound message exactly by variant: a
`Response` goes to `handle_response` and only there (UI trace and sink
untouched; a failing `handle_response` hits the `expect` panic); a `Request`
goes to the generic unhandled-message sink; a `Notification` whose method is
exactly "redraw" has its params decoded and the decoded events forwarded to
the UI collaborator (client state and sink untouched); a `Notification`
with any other method goes to the generic sink. -/
theorem io_step_dispatch (st : LoopState) :
    (∀ res : ResponseMsg,
       (io_step st (Message.response res)).ui = st.ui ∧
       (io_step st (Message.response res)).sink = st.sink ∧
       (io_step st (Message.response res)).client =
         (match handle_response st.client res with
          | Except.ok c => c
          | Except.error _ => st.client) ∧
       (io_step st (Message.response res)).panicked =
         (match handle_response st.client res with
          | Except.ok _ => st.panicked
          | Except.error _ => some handleResponsePanicMsg)) ∧
    (∀ req : RequestMsg,
       io_step st (Message.request req) =
         { st with sink := st.sink ++ [SinkItem.request req] }) ∧
    (∀ (params : List Value) (events : List UiEvent),
       decode_redraw_params params = Except.ok events →
       io_step st (Message.notification { method := "redraw", params := params }) =
         forward_events st events ∧
       (forward_events st events).client = st.client ∧
       (forward_events st events).sink = st.sink) ∧
    (∀ (method : String) (params : List Value), method ≠ "redraw" →
       io_step st (Message.notification { method := method, params := params }) =
         { st with sink := st.sink ++ [SinkItem.notification method params] }) := by
  refine ⟨?_, ?_, ?_, ?_⟩
  · intro res
    cases h : handle_response st.client res with
    | ok c => simp [io_step, h]
    | error e => simp [io_step, h]
  · intro req
    rfl
  · intro params events hd
    refine ⟨?_, (forward_events_frame events st).1, (forward_events_frame events st).2⟩
    simp [io_step, hd]
  · intro method params hm
    simp only [io_step, if_neg hm]

theorem io_step_dispatch_witness :
    decode_redraw_params [] = Except.ok [] ∧
    "Redraw" ≠ "redraw" ∧
    io_step loop0 (Message.notification { method := "redraw", params := [] }) =
      forward_events loop0 [] ∧
    io_step loop0 (Message.notification { method := "Redraw", params := [] }) =
      { loop0 with sink := loop0.sink ++ [SinkItem.notification "Redraw" []] } := by
  refine ⟨rfl, by decide, ?_, ?_⟩
  · exact ((io_step_dispatch loop0).2.2.1 [] [] rfl).1
  · exact (io_step_dispatch loop0).2.2.2 "Redraw" [] (by decide)

/-- C5 counterexample: a stream carrying one redraw notification with a
decode error followed by another notification: `io_loop` panics at the
`expect` on `decode_redraw_params` — the decode error terminates the read
loop (the connection) — and the following notification is never processed
(the sink stays empty), so the error is not isolated to its own
notification. -/
theorem decode_error_not_isolated_counterexample :
    decode_redraw_params badRedrawParams =
      Except.error (DecodeError.unknownEvent "totally_bogus_event") ∧
    (io_loop loop0
        [Except.ok (Message.notification
           { method := "redraw", params := badRedrawParams }),
         Except.ok (Message.notification
           { method := "other_notification", params := [] })]).panicked =
      some decodePanicMsg ∧
    (io_loop loop0
        [Except.ok (Message.notification
           { method := "redraw", params := badRedrawParams }),
         Except.ok (Message.notification
           { method := "other_notification", params := [] })]).sink = [] := by
  exact ⟨rfl, rfl, rfl⟩

/-- C5 amended: the decoder itself reports a decode error as a returned
value (it is pure and forces no policy), but the gnvim embedding's chosen
policy is to halt: on any decode error `io_loop` panics via
`.expect("failed to decode redraw notification")`, terminating the read
loop, so no later message of the stream is processed. -/
theorem io_loop_decode_error_halts (st : LoopState) (n : NotificationMsg)
    (e : DecodeError) (rest : List (Except CodecError Message))
    (hp : st.panicked = none) (hm : n.method = "redraw")
    (hd : decode_redraw_params n.params = Except.error e) :
    io_loop st (Except.ok (Message.notification n) :: rest) =
      { st with panicked := some decodePanicMsg } := by
  have hstep : io_step st (Message.notification n) =
      { st with panicked := some decodePanicMsg } := by
    simp [io_step, hm, hd]
  rw [io_loop_cons_ok st _ rest hp, hstep]
  exact io_loop_of_panicked _ decodePanicMsg rfl rest

theorem io_loop_decode_error_halts_witness :
    loop0.panicked = none ∧
    ({ method := "redraw", params := badRedrawParams } : NotificationMsg).method =
      "redraw" ∧
    decode_redraw_params badRedrawParams =
      Except.error (DecodeError.unknownEvent "totally_bogus_event") ∧
    io_loop loop0
        [Except.ok (Message.notification
           { method := "redraw", params := badRedrawParams })] =
      { loop0 with panicked := some decodePanicMsg } := by
  exact ⟨rfl, rfl, rfl,
    io_loop_decode_error_halts loop0 { method := "redraw", params := badRedrawParams }
      (DecodeError.unknownEvent "totally_bogus_event") [] rfl rfl rfl⟩

/-- C7: the decoded `UiEvent` sequence of a redraw notification is forwarded
to the UI collaborator in exactly the order the decoder produced, nothing
dropped (provided no event hits the handler's panic arm): after one redraw
notification the forwarded trace grows by exactly the decoded sequence, and
after two redraw notifications by the two decoded sequences in stream order
— no reordering and no merging across notifications. -/
theorem redraw_events_forwarded_in_order (st : LoopState)
    (params params2 : List Value) (events events2 : List UiEvent)
    (hd : decode_redraw_params params = Except.ok events)
    (hh : ∀ e ∈ events, e.handled = true)
    (hd2 : decode_redraw_params params2 = Except.ok events2)
    (hh2 : ∀ e ∈ events2, e.handled = true)
    (hp : st.panicked = none) :
    (io_step st (Message.notification { method := "redraw", params := params })).ui =
      st.ui ++ events ∧
    (io_loop st
        [Except.ok (Message.notification { method := "redraw", params := params }),
         Except.ok (Message.notification { method := "redraw", params := params2 })]).ui =
      st.ui ++ events ++ events2 := by
  have hstep : io_step st (Message.notification { method := "redraw", params := params }) =
      forward_events st events := by
    simp [io_step, hd]
  have h1 := forward_events_all_handled events st hh
  refine ⟨by rw [hstep]; exact h1.1, ?_⟩
  rw [io_loop_cons_ok st _ _ hp, hstep]
  have hp1 : (forward_events st events).panicked = none := by rw [h1.2, hp]
  rw [io_loop_cons_ok _ _ _ hp1]
  have hstep2 : io_step (forward_events st events)
      (Message.notification { method := "redraw", params := params2 }) =
      forward_events (forward_events st events) events2 := by
    simp [io_step, hd2]
  rw [hstep2]
  have h2 := forward_events_all_handled events2 (forward_events st events) hh2
  rw [io_loop, h2.1, h1.1]

theorem redraw_events_forwarded_in_order_witness :
    decode_redraw_params [Value.array [Value.str "flush"]] =
      Except.ok [UiEvent.flush] ∧
    (∀ e ∈ [UiEvent.flush], e.handled = true) ∧
    decode_redraw_params [Value.array [Value.str "mouse_on"]] =
      Except.ok [UiEvent.mouseOn] ∧
    (∀ e ∈ [UiEvent.mouseOn], e.handled = true) ∧
    loop0.panicked = none ∧
    (io_loop loop0
        [Except.ok (Message.notification
           { method := "redraw", params := [Value.array [Value.str "flush"]] }),
         Except.ok (Message.notification
           { method := "redraw", params := [Value.array [Value.str "mouse_on"]] })]).ui =
      loop0.ui ++ [UiEvent.flush] ++ [UiEvent.mouseOn] := by
  refine ⟨rfl, ?_, rfl, ?_, rfl, ?_⟩
  · intro e he
    rcases List.mem_singleton.mp he with rfl
    rfl
  · intro e he
    rcases List.mem_singleton.mp he with rfl
    rfl
  · exact (redraw_events_forwarded_in_order loop0
      [Value.array [Value.str "flush"]] [Value.array [Value.str "mouse_on"]]
      [UiEvent.flush] [UiEvent.mouseOn] rfl
      (by intro e he; rcases List.mem_singleton.mp he with rfl; rfl) rfl
      (by intro e he; rcases List.mem_singleton.mp he with rfl; rfl) rfl).2

/-- C8: `handle_ui_event` panics (the catch-all `panic!("Unhandled ui
event")` arm) on every `UiEvent` variant outside its explicitly handled
set — exactly the grid-scroll variant in this enum — and a redraw
notification carrying a well-formed `grid_scroll` batch decodes
successfully yet panics the read loop. -/
theorem unhandled_ui_event_panics :
    (∀ (app : AppState) (occs : List (List Value)),
       handle_ui_event app (UiEvent.gridScroll occs) =
         Except.error unhandledUiEventMsg) ∧
    (∀ e : UiEvent, e.handled = false ↔ ∃ occs, e = UiEvent.gridScroll occs) ∧
    decode_redraw_params [gridScrollBatch] =
      Except.ok [UiEvent.gridScroll [gridScrollOcc]] ∧
    (io_loop loop0
        [Except.ok (Message.notification
           { method := "redraw", params := [gridScrollBatch] })]).panicked =
      some unhandledUiEventMsg := by
  refine ⟨fun app occs => rfl, ?_, rfl, rfl⟩
  intro e
  cases e <;> simp [UiEvent.handled]
